import Mathlib

/-!
Verification of the Express JWT authentication and notes API
(`src/index.ts`, `src/models/Users.ts`) against its specification.

The HTTP service exposes a login route, token-gated CRUD routes over a
single Sequelize model `User` (which doubles as the notes table: the
handlers read and write the attributes `id`, `username`, `email`,
`password`, `title`, `content`, `userId` of the same table), a share
route delegating to the unimplemented `addSharedUser`, and a username
substring search.

The storage collaborator (Sequelize/Postgres) is modelled by the generic
semantics of `findOne` / `findAll` / `create` / `update` / `destroy`
over a list of rows; the jsonwebtoken library is modelled by its
contract (a signed token carries its payload, signing key and algorithm,
and verification succeeds exactly when key and algorithm match —
a signature-collision-free idealization of HMAC).
-/

/-- A row of the single `Users` table. The Sequelize model declares
`id` (auto-increment primary key), `username`, `email`, `password`;
the note handlers additionally read and write `title`, `content` and
`userId` on the same rows (the entity confusion flagged by the spec). -/
structure Row where
  id : Nat
  username : String
  email : String
  password : String
  title : String
  content : String
  userId : Nat
  deriving DecidableEq, Repr

/-- The table contents: a list of rows. -/
abbrev Store := List Row

/-- A JSON value, as far as the handlers inspect one. -/
inductive Value where
  | str (s : String)
  | num (n : Nat)
  deriving DecidableEq, Repr

/-- A JavaScript object literal: ordered key/value bindings, a later
binding for the same key shadowing an earlier one (as in `{...a, k: v}`). -/
abbrev JsObject := List (String × Value)

/-- Property lookup on a JavaScript object: the last binding of the key
wins, absent keys read as `undefined` (`none`). -/
def getProp (o : JsObject) (k : String) : Option Value :=
  match o.reverse.find? (fun kv => kv.1 == k) with
  | some kv => some kv.2
  | none => none

/-- Read a string property, defaulting to the empty string (a missing
attribute is stored as NULL; the handlers never read it back as text). -/
def getStr (o : JsObject) (k : String) : String :=
  match getProp o k with
  | some (Value.str s) => s
  | _ => ""

/-- Read a numeric property, defaulting to zero. -/
def getNum (o : JsObject) (k : String) : Nat :=
  match getProp o k with
  | some (Value.num n) => n
  | _ => 0

/-! ## Token service (`signToken` / `verifyToken`, src/index.ts) -/

/-- A JWT signing algorithm. `jwt.sign` is called with HS256; `jwt.verify`
is restricted to `['HS256']`. -/
inductive Alg where
  | HS256
  | HS384
  | noneAlg
  deriving DecidableEq, Repr

/-- The payload the service signs: `{ userId: user.id }`. -/
structure Payload where
  userId : Nat
  deriving DecidableEq, Repr

/-- A signed token, modelled by the jsonwebtoken contract: it determines
its payload, the key it was signed with, and the algorithm. -/
structure Jwt where
  payload : Payload
  key : String
  alg : Alg
  deriving DecidableEq, Repr

/-- `process.env.JWT_SECRET || 'yourSecretKey'` with the variable unset. -/
def secretKey : String := "yourSecretKey"

/-- `jwt.sign(data, key, { algorithm })`. -/
def jwtSign (data : Payload) (key : String) (alg : Alg) : Jwt :=
  ⟨data, key, alg⟩

/-- `jwt.verify(token, key, { algorithms })`: succeeds exactly when the
token was signed with `key` under one of the allowed algorithms
(idealizing the HMAC signature check as collision-free); otherwise it
throws, which the caller turns into `none`. -/
def jwtVerify (t : Jwt) (key : String) (algs : List Alg) : Option Payload :=
  if t.key = key ∧ t.alg ∈ algs then some t.payload else none

/-- `signToken` (src/index.ts:34): signs with the process-wide secret
and HS256. -/
def signToken (data : Payload) : Jwt :=
  jwtSign data secretKey Alg.HS256

/-- What arrives in the `Authorization` header: either a structurally
well-formed signed token, or any other string (including the empty one).
`jwt.verify` throws on the latter. A signed JWT serializes to a nonempty
string, so only a `garbage` wire can be empty. -/
inductive Wire where
  | tok (j : Jwt)
  | garbage (s : String)
  deriving DecidableEq, Repr

/-- JavaScript falsiness of the header string: `!token` is true exactly
for the empty string (given the header is present at all). -/
def wireEmpty : Wire → Bool
  | Wire.tok _ => false
  | Wire.garbage s => s == ""

/-- `verifyToken` (src/index.ts:56): `jwt.verify` inside try/catch,
returning `null` on any throw — malformed input or failed verification. -/
def verifyToken (w : Wire) : Option Payload :=
  match w with
  | Wire.tok j => jwtVerify j secretKey [Alg.HS256]
  | Wire.garbage _ => none

/-- Outcome of the request gate. -/
inductive GateResult where
  | missingToken
  | invalidToken
  | proceed (p : Payload)
  deriving DecidableEq, Repr

/-- `authenticateToken` middleware (src/index.ts:72): missing (or falsy)
header → 401; present but unverifiable → 403; otherwise the decoded
payload is attached to the request and the handler runs. -/
def authenticateToken (h : Option Wire) : GateResult :=
  match h with
  | none => GateResult.missingToken
  | some w =>
    if wireEmpty w then GateResult.missingToken
    else
      match verifyToken w with
      | none => GateResult.invalidToken
      | some p => GateResult.proceed p

/-! ## Storage operations (generic Sequelize semantics over `Store`) -/

/-- `Model.findOne({ where })`: the first row satisfying the predicate. -/
def findOne (p : Row → Bool) (s : Store) : Option Row :=
  List.find? p s

/-- `Model.findAll({ where })`: all rows satisfying the predicate. -/
def findAll (p : Row → Bool) (s : Store) : List Row :=
  List.filter p s

/-- Largest id present in the table. -/
def maxId : Store → Nat
  | [] => 0
  | r :: rs => max r.id (maxId rs)

/-- The next auto-increment id. -/
def nextId (s : Store) : Nat := maxId s + 1

/-- `Model.update(values, { where })`: returns the affected row count and
applies the update to every matching row. -/
def updateWhere (f : Row → Row) (p : Row → Bool) (s : Store) : Nat × Store :=
  ((List.filter p s).length, s.map (fun r => if p r then f r else r))

/-- `Model.destroy({ where })`: returns the deleted row count and removes
every matching row. -/
def destroyWhere (p : Row → Bool) (s : Store) : Nat × Store :=
  ((List.filter p s).length, s.filter (fun r => !(p r)))

/-- `Users.addSharedUser` (src/models/Users.ts:14): unconditionally
`throw new Error("Method not implemented.")`. -/
inductive JsError where
  | storageFailure
  | methodNotImplemented
  deriving DecidableEq, Repr

def addSharedUser (_note _userToShareWith : Row) : Except JsError Unit :=
  Except.error JsError.methodNotImplemented

/-! ## HTTP responses -/

/-- The projection returned by the search route: public fields only;
there is no password field in this record type. -/
structure SearchResult where
  id : Nat
  username : String
  email : String
  deriving DecidableEq, Repr

inductive RespBody where
  | errBody (msg : String)
  | tokenBody (t : Jwt)
  | noteBody (r : Row)
  | notesBody (l : List Row)
  | searchBody (l : List SearchResult)
  | msgBody (msg : String)
  | emptyBody
  deriving DecidableEq, Repr

structure Response where
  status : Nat
  body : RespBody
  deriving DecidableEq, Repr

/-- `res.status(n).json({ error: msg })`. -/
def err (n : Nat) (msg : String) : Response := ⟨n, RespBody.errBody msg⟩

/-- `res.sendStatus(n)`. -/
def sendStatus (n : Nat) : Response := ⟨n, RespBody.emptyBody⟩

/-! ## Route handlers (src/index.ts) -/

/-- The where-clause of the login lookup:
`{ email, password }` — exact match on both. -/
def credPred (email password : String) (r : Row) : Bool :=
  r.email == email && r.password == password

/-- Outcome of `POST /api/auth/login` (src/index.ts:83), success path of
the storage call: no matching record → 401 invalid credentials; a match
→ 200 with a token over `{ userId: user.id }`. -/
def loginLogic (found : Option Row) : Response :=
  match found with
  | none => err 401 "Invalid credentials"
  | some u => ⟨200, RespBody.tokenBody (signToken ⟨u.id⟩)⟩

def loginHandler (email password : String) (s : Store) : Response :=
  loginLogic (findOne (credPred email password) s)

/-- The owner filter used by the by-id note handlers:
`{ id: noteId, userId: req.user.userId }`. -/
def notePred (subject noteId : Nat) (r : Row) : Bool :=
  r.id == noteId && r.userId == subject

/-- `GET /api/notes` (src/index.ts:106): all rows with the subject's
`userId`. -/
def getNotesHandler (subject : Nat) (s : Store) : Response :=
  ⟨200, RespBody.notesBody (findAll (fun r => r.userId == subject) s)⟩

/-- `GET /api/notes/:id` (src/index.ts:122): `findOne` under the owner
filter; absence → 404. -/
def getNoteLogic (found : Option Row) : Response :=
  match found with
  | none => err 404 "Note not found"
  | some n => ⟨200, RespBody.noteBody n⟩

def getNoteHandler (subject noteId : Nat) (s : Store) : Response :=
  getNoteLogic (findOne (notePred subject noteId) s)

/-- The attribute object persisted by `POST /api/notes` (src/index.ts:140):
`{ ...req.body, userId: req.user.userId }` — the spread of the client
body followed by the `userId` binding, which therefore shadows any
client-supplied `userId`. -/
def createAttrs (subject : Nat) (body : JsObject) : JsObject :=
  body ++ [("userId", Value.num subject)]

/-- Build the persisted row from an attribute object and the fresh
auto-increment id. -/
def buildRow (attrs : JsObject) (newId : Nat) : Row :=
  { id := newId
    username := getStr attrs "username"
    email := getStr attrs "email"
    password := getStr attrs "password"
    title := getStr attrs "title"
    content := getStr attrs "content"
    userId := getNum attrs "userId" }

/-- The row persisted by a create request. -/
def createdRow (subject : Nat) (body : JsObject) (s : Store) : Row :=
  buildRow (createAttrs subject body) (nextId s)

/-- `POST /api/notes` (src/index.ts:140): persist the row, respond 201
with the created record. -/
def createNoteHandler (subject : Nat) (body : JsObject) (s : Store) :
    Response × Store :=
  (⟨201, RespBody.noteBody (createdRow subject body s)⟩,
    s ++ [createdRow subject body s])

/-- `Model.update` values from `req.body`: each model attribute present
in the body overwrites the row's field. -/
def applyUpdate (body : JsObject) (r : Row) : Row :=
  { id := match getProp body "id" with
      | some (Value.num n) => n
      | _ => r.id
    username := match getProp body "username" with
      | some (Value.str s) => s
      | _ => r.username
    email := match getProp body "email" with
      | some (Value.str s) => s
      | _ => r.email
    password := match getProp body "password" with
      | some (Value.str s) => s
      | _ => r.password
    title := match getProp body "title" with
      | some (Value.str s) => s
      | _ => r.title
    content := match getProp body "content" with
      | some (Value.str s) => s
      | _ => r.content
    userId := match getProp body "userId" with
      | some (Value.num n) => n
      | _ => r.userId }

/-- `PUT /api/notes/:id` (src/index.ts:156): update under the owner
filter; zero affected rows → 404, otherwise 204. -/
def updateNoteHandler (subject noteId : Nat) (body : JsObject) (s : Store) :
    Response × Store :=
  let r := updateWhere (applyUpdate body) (notePred subject noteId) s
  (if r.1 = 0 then err 404 "Note not found" else sendStatus 204, r.2)

/-- `DELETE /api/notes/:id` (src/index.ts:174): destroy under the owner
filter; zero deleted rows → 404, otherwise 204. -/
def deleteNoteHandler (subject noteId : Nat) (s : Store) : Response × Store :=
  let r := destroyWhere (notePred subject noteId) s
  (if r.1 = 0 then err 404 "Note not found" else sendStatus 204, r.2)

/-! ## SQL LIKE and the search handler -/

/-- Try a matcher on the string and on every suffix of it: the search a
`%` wildcard performs for the rest of the pattern. -/
def likeStar (f : List Char → Bool) : List Char → Bool
  | [] => f []
  | c :: ss => f (c :: ss) || likeStar f ss

/-- SQL `LIKE` pattern matching over characters: `%` matches any sequence,
`_` matches any single character, every other pattern character matches
itself. -/
def likeMatch : List Char → List Char → Bool
  | [], s => s.isEmpty
  | p :: ps, s =>
    if p = '%' then likeStar (likeMatch ps) s
    else
      match s with
      | [] => false
      | c :: ss => (p == '_' || p == c) && likeMatch ps ss

/-- `q` occurs at the start of `s`. -/
def hasPre (q s : List Char) : Bool :=
  match q, s with
  | [], _ => true
  | _ :: _, [] => false
  | a :: qs, b :: ss => a == b && hasPre qs ss

/-- Modelled from the spec wording "contains q as a substring": `q`
occurs contiguously inside `s`. Compared against the code-side
`likeMatch` semantics of the search route. -/
def isSubstr (q s : List Char) : Bool :=
  match s with
  | [] => hasPre q []
  | _ :: ss => hasPre q s || isSubstr q ss

/-- `GET /api/search` (src/index.ts:223): `findAll` with
`username LIKE '%' + q + '%'`, projected to `{id, username, email}`. -/
def searchPattern (q : String) : List Char :=
  '%' :: (q.data ++ ['%'])

def searchLogic (q : String) (s : Store) : List SearchResult :=
  (findAll (fun r => likeMatch (searchPattern q) r.username.data) s).map
    (fun r => ⟨r.id, r.username, r.email⟩)

/-! ## Routes as functions of the storage outcome (try/catch structure) -/

/-- The `try { ... } catch { res.status(500).json(...) }` pattern wrapped
around a handler body: a rejection anywhere in the body is converted to
the handler's generic 500 response. -/
def tryCatch (body : Except JsError Response) (onErr : Response) :
    Except JsError Response :=
  match body with
  | Except.ok r => Except.ok r
  | Except.error _ => Except.ok onErr

/-- `POST /api/auth/login` with its storage outcome explicit. -/
def route_login (findRes : Except JsError (Option Row)) :
    Except JsError Response :=
  tryCatch (findRes.map loginLogic) (err 500 "Failed to log in")

/-- `GET /api/notes` with its storage outcome explicit. -/
def route_getNotes (findRes : Except JsError (List Row)) :
    Except JsError Response :=
  tryCatch (findRes.map (fun notes => ⟨200, RespBody.notesBody notes⟩))
    (err 500 "Failed to retrieve notes")

/-- `GET /api/notes/:id` with its storage outcome explicit. -/
def route_getNote (findRes : Except JsError (Option Row)) :
    Except JsError Response :=
  tryCatch (findRes.map getNoteLogic) (err 500 "Failed to retrieve note")

/-- `POST /api/notes` with its storage outcome explicit. -/
def route_createNote (createRes : Except JsError Row) :
    Except JsError Response :=
  tryCatch (createRes.map (fun newNote => ⟨201, RespBody.noteBody newNote⟩))
    (err 500 "Failed to create a new note")

/-- `PUT /api/notes/:id` with its storage outcome (affected count)
explicit. -/
def route_updateNote (updRes : Except JsError Nat) :
    Except JsError Response :=
  tryCatch
    (updRes.map (fun cnt =>
      if cnt = 0 then err 404 "Note not found" else sendStatus 204))
    (err 500 "Failed to update note")

/-- `DELETE /api/notes/:id` with its storage outcome (deleted count)
explicit. -/
def route_deleteNote (delRes : Except JsError Nat) :
    Except JsError Response :=
  tryCatch
    (delRes.map (fun cnt =>
      if cnt = 0 then err 404 "Note not found" else sendStatus 204))
    (err 500 "Failed to delete note")

/-- The try-block of `POST /api/notes/:id/share` (src/index.ts:192):
look up the note under the owner filter, then the target user, then
delegate to `addSharedUser`. -/
def shareBody (noteRes userRes : Except JsError (Option Row)) :
    Except JsError Response := do
  let note? ← noteRes
  match note? with
  | none =>
    pure (err 404 "Note not found or does not belong to the authenticated user")
  | some note =>
    let user? ← userRes
    match user? with
    | none => pure (err 404 "User to share with not found")
    | some u =>
      let _ ← addSharedUser note u
      pure ⟨200, RespBody.msgBody "Note shared successfully"⟩

def route_share (noteRes userRes : Except JsError (Option Row)) :
    Except JsError Response :=
  tryCatch (shareBody noteRes userRes) (err 500 "Failed to share the note")

/-- `GET /api/search` with its storage outcome explicit: the one handler
with no try/catch — a storage rejection propagates out of the handler
instead of becoming a response. -/
def route_search (_q : String) (findRes : Except JsError (List Row)) :
    Except JsError Response :=
  findRes.map (fun users =>
    ⟨200, RespBody.searchBody (users.map (fun r => ⟨r.id, r.username, r.email⟩))⟩)

/-! ## Helper lemmas -/

theorem mem_id_le_maxId {r : Row} {s : Store} (h : r ∈ s) : r.id ≤ maxId s := by
  induction s with
  | nil => cases h
  | cons a as ih =>
    rcases List.mem_cons.mp h with h | h
    · subst h; exact le_max_left _ _
    · exact le_trans (ih h) (le_max_right _ _)

/-- Appending a single binding: it shadows the object's own binding of
that key and leaves every other key alone. -/
theorem getProp_concat (o : JsObject) (key k : String) (v : Value) :
    getProp (o ++ [(key, v)]) k =
      if key == k then some v else getProp o k := by
  unfold getProp
  rw [List.reverse_append]
  simp only [List.reverse_cons, List.reverse_nil, List.nil_append,
    List.singleton_append, List.find?_cons]
  cases h : (key == k) <;> simp [h]

/-- A predicate false on every row makes the filter empty. -/
theorem filter_none_of_all_false {p : Row → Bool} {s : Store}
    (h : ∀ r ∈ s, p r = false) : List.filter p s = [] :=
  List.filter_eq_nil_iff.mpr (fun r hr => by simp [h r hr])

/-- An update whose where-clause matches no row leaves the store as it
was. -/
theorem map_update_of_all_false {f : Row → Row} {p : Row → Bool} {s : Store}
    (h : ∀ r ∈ s, p r = false) :
    s.map (fun r => if p r then f r else r) = s := by
  calc s.map (fun r => if p r then f r else r)
      = s.map id := List.map_congr_left (fun r hr => by simp [h r hr])
    _ = s := List.map_id s

/-! ## Demo data (used by the witnesses) -/

def rowA : Row :=
  { id := 1, username := "john", email := "a@x.com", password := "p1",
    title := "groceries", content := "milk", userId := 1 }

def rowB : Row :=
  { id := 5, username := "bob", email := "b@x.com", password := "p2",
    title := "meeting", content := "agenda", userId := 2 }

def demoStore : Store := [rowA, rowB]

/-! ## C1: owner filter on get/update/delete by id -/

/-- C1: for every Note `N` and authenticated subject with a subjectId
distinct from `N.ownerId`, the get-by-id, update-by-id and delete-by-id
operations invoked on `N`'s id answer 404 Not Found and leave the store
(in particular `N`) unchanged. The id-uniqueness hypothesis reflects
`id` being the primary key. -/
theorem c1_owner_filter_404 (s : Store) (subject noteId : Nat) (N : Row)
    (hmem : N ∈ s) (hid : N.id = noteId) (hown : N.userId ≠ subject)
    (huniq : ∀ r ∈ s, r.id = noteId → r = N) (body : JsObject) :
    getNoteHandler subject noteId s = err 404 "Note not found" ∧
    updateNoteHandler subject noteId body s = (err 404 "Note not found", s) ∧
    deleteNoteHandler subject noteId s = (err 404 "Note not found", s) := by
  have hpred : ∀ r ∈ s, notePred subject noteId r = false := by
    intro r hr
    cases hp : notePred subject noteId r with
    | false => rfl
    | true =>
      exfalso
      have hconj := hp
      unfold notePred at hconj
      have hidr : r.id = noteId := by
        have := (Bool.and_eq_true _ _).mp hconj
        exact eq_of_beq this.1
      have hur : r.userId = subject := by
        have := (Bool.and_eq_true _ _).mp hconj
        exact eq_of_beq this.2
      have : r = N := huniq r hr hidr
      exact hown (this ▸ hur)
  have hfilter : List.filter (notePred subject noteId) s = [] :=
    filter_none_of_all_false hpred
  have hfind : List.find? (notePred subject noteId) s = none :=
    List.find?_eq_none.mpr (fun r hr => by simp [hpred r hr])
  refine ⟨?_, ?_, ?_⟩
  · unfold getNoteHandler findOne
    rw [hfind]; rfl
  · unfold updateNoteHandler updateWhere
    rw [hfilter]
    simp [map_update_of_all_false hpred]
  · unfold deleteNoteHandler destroyWhere
    rw [hfilter]
    have : s.filter (fun r => !(notePred subject noteId r)) = s :=
      List.filter_eq_self.mpr (fun r hr => by simp [hpred r hr])
    simp [this]

/-- C1 witness: subject 1 operating on note 5, which belongs to
subject 2, gets 404 from all three operations and the store is
untouched. -/
theorem c1_owner_filter_404_witness :
    getNoteHandler 1 5 demoStore = err 404 "Note not found" ∧
    updateNoteHandler 1 5 [("title", Value.str "stolen")] demoStore =
      (err 404 "Note not found", demoStore) ∧
    deleteNoteHandler 1 5 demoStore = (err 404 "Note not found", demoStore) :=
  c1_owner_filter_404 demoStore 1 5 rowB (by decide) (by decide) (by decide)
    (by decide) [("title", Value.str "stolen")]

/-! ## C9: idempotence of delete -/

/-- C9: deleting a note id a second time after a successful delete — and
more generally deleting any id with no matching owned record — answers
404 Not Found (not a 500) and leaves the store unchanged. -/
theorem c9_delete_idempotent (subject noteId : Nat) (s : Store) :
    (deleteNoteHandler subject noteId (deleteNoteHandler subject noteId s).2 =
      (err 404 "Note not found", (deleteNoteHandler subject noteId s).2)) ∧
    (List.filter (notePred subject noteId) s = [] →
      deleteNoteHandler subject noteId s = (err 404 "Note not found", s)) := by
  constructor
  · unfold deleteNoteHandler destroyWhere
    simp only []
    have h1 : List.filter (notePred subject noteId)
        (List.filter (fun r => !(notePred subject noteId r)) s) = [] := by
      rw [List.filter_filter]
      simp
    have h2 : List.filter (fun r => !(notePred subject noteId r))
        (List.filter (fun r => !(notePred subject noteId r)) s) =
        List.filter (fun r => !(notePred subject noteId r)) s := by
      rw [List.filter_filter]
      simp
    simp [h1, h2]
  · intro h
    have hall : ∀ r ∈ s, notePred subject noteId r = false := by
      intro r hr
      have := List.filter_eq_nil_iff.mp h r hr
      simpa using this
    unfold deleteNoteHandler destroyWhere
    rw [h]
    have : s.filter (fun r => !(notePred subject noteId r)) = s :=
      List.filter_eq_self.mpr (fun r hr => by simp [hall r hr])
    simp [this]

/-- C9 witness: deleting id 99 (no such owned note) from the demo store
yields 404 and the identical store. -/
theorem c9_delete_idempotent_witness :
    deleteNoteHandler 1 99 demoStore = (err 404 "Note not found", demoStore) :=
  (c9_delete_idempotent 1 99 demoStore).2 (by decide)

/-! ## C2: authenticate / verify round trip -/

/-- C2: a credential accepted by the login lookup yields a token which
`verifyToken` accepts, recovering exactly the subjectId that was signed. -/
theorem c2_login_token_roundtrip (s : Store) (email password : String) (u : Row)
    (h : findOne (credPred email password) s = some u) :
    loginHandler email password s =
      ⟨200, RespBody.tokenBody (signToken ⟨u.id⟩)⟩ ∧
    verifyToken (Wire.tok (signToken ⟨u.id⟩)) = some ⟨u.id⟩ := by
  constructor
  · unfold loginHandler
    rw [h]
    rfl
  · simp [verifyToken, jwtVerify, signToken, jwtSign]

/-- C2 witness: rowA's credentials log in and the issued token verifies
back to subjectId 1. -/
theorem c2_login_token_roundtrip_witness :
    loginHandler "a@x.com" "p1" demoStore =
      ⟨200, RespBody.tokenBody (signToken ⟨1⟩)⟩ ∧
    verifyToken (Wire.tok (signToken ⟨1⟩)) = some ⟨1⟩ :=
  c2_login_token_roundtrip demoStore "a@x.com" "p1" rowA (by decide)

/-! ## C4: login is an exact identifier + secret match -/

/-- C4: the login lookup matches on email together with exact password;
no matching record (in particular a right email with a wrong password)
answers 401 invalid credentials, a match answers 200 with a token. -/
theorem c4_login_exact_match (s : Store) (email password : String) :
    ((¬ ∃ r ∈ s, r.email = email ∧ r.password = password) →
      loginHandler email password s = err 401 "Invalid credentials") ∧
    ((∃ r ∈ s, r.email = email ∧ r.password = password) →
      ∃ u ∈ s, u.email = email ∧ u.password = password ∧
        loginHandler email password s =
          ⟨200, RespBody.tokenBody (signToken ⟨u.id⟩)⟩) := by
  constructor
  · intro h
    have hn : List.find? (credPred email password) s = none := by
      apply List.find?_eq_none.mpr
      intro r hr hp
      apply h
      refine ⟨r, hr, ?_, ?_⟩
      · exact eq_of_beq ((Bool.and_eq_true _ _).mp hp).1
      · exact eq_of_beq ((Bool.and_eq_true _ _).mp hp).2
    unfold loginHandler findOne
    rw [hn]
    rfl
  · intro h
    cases hf : List.find? (credPred email password) s with
    | none =>
      exfalso
      obtain ⟨r, hr, he, hp⟩ := h
      have hnot := List.find?_eq_none.mp hf r hr
      apply hnot
      unfold credPred
      simp [he, hp]
    | some u =>
      have hu := List.find?_some hf
      refine ⟨u, List.mem_of_find?_eq_some hf,
        eq_of_beq ((Bool.and_eq_true _ _).mp hu).1,
        eq_of_beq ((Bool.and_eq_true _ _).mp hu).2, ?_⟩
      unfold loginHandler findOne
      rw [hf]
      rfl

/-- C4 witness: the right email with a wrong password is rejected with
401 invalid credentials. -/
theorem c4_login_exact_match_witness :
    loginHandler "a@x.com" "wrong" demoStore = err 401 "Invalid credentials" :=
  (c4_login_exact_match demoStore "a@x.com" "wrong").1 (by decide)

/-! ## C3: the request gate (corrected) -/

/-- C3 counterexample: an `Authorization` header that is present but
empty is an unverifiable token per the claim (`verifyToken` rejects it),
yet the gate answers 401 (missing token), not the claimed 403: JavaScript
`!token` is true for the empty string. -/
theorem c3_gate_counterexample :
    verifyToken (Wire.garbage "") = none ∧
    authenticateToken (some (Wire.garbage "")) = GateResult.missingToken ∧
    authenticateToken (some (Wire.garbage "")) ≠ GateResult.invalidToken :=
  ⟨rfl, rfl, by decide⟩

/-- C3 (amended): an absent — or present but empty — token header is
answered 401; a present nonempty header whose token does not verify is
answered 403; a verifying token attaches its payload and lets the
handler run. `verifyToken` fails closed, returning invalid (never
throwing) on every malformed wire and on every token whose key is not
the service secret or whose algorithm is not HS256. -/
theorem c3_gate_amended :
    (authenticateToken none = GateResult.missingToken) ∧
    (∀ w, wireEmpty w = true →
      authenticateToken (some w) = GateResult.missingToken) ∧
    (∀ w, wireEmpty w = false → verifyToken w = none →
      authenticateToken (some w) = GateResult.invalidToken) ∧
    (∀ w p, wireEmpty w = false → verifyToken w = some p →
      authenticateToken (some w) = GateResult.proceed p) ∧
    (∀ s, verifyToken (Wire.garbage s) = none) ∧
    (∀ j : Jwt, j.key ≠ secretKey ∨ j.alg ≠ Alg.HS256 →
      verifyToken (Wire.tok j) = none) := by
  refine ⟨rfl, ?_, ?_, ?_, fun s => rfl, ?_⟩
  · intro w hw
    simp [authenticateToken, hw]
  · intro w hw hv
    simp [authenticateToken, hw, hv]
  · intro w p hw hv
    simp [authenticateToken, hw, hv]
  · intro j hj
    unfold verifyToken jwtVerify
    rcases hj with hk | ha
    · simp [hk]
    · simp [ha]

/-- C3 witness: a nonempty garbage header is answered 403; a token the
service itself signed is accepted with its payload attached. -/
theorem c3_gate_amended_witness :
    authenticateToken (some (Wire.garbage "junk")) = GateResult.invalidToken ∧
    authenticateToken (some (Wire.tok (signToken ⟨7⟩))) =
      GateResult.proceed ⟨7⟩ :=
  ⟨c3_gate_amended.2.2.1 (Wire.garbage "junk") (by decide) rfl,
   c3_gate_amended.2.2.2.1 (Wire.tok (signToken ⟨7⟩)) ⟨7⟩ rfl
     (by simp [verifyToken, jwtVerify, signToken, jwtSign])⟩

/-! ## C10: ownerId always comes from the verified token -/

/-- The `userId` binding appended after the body spread shadows any
client-supplied `userId`. -/
theorem createdRow_userId (subject : Nat) (body : JsObject) (s : Store) :
    (createdRow subject body s).userId = subject := by
  have h : (createdRow subject body s).userId =
      getNum (createAttrs subject body) "userId" := rfl
  rw [h]
  unfold getNum createAttrs
  rw [getProp_concat]
  simp

/-- A key other than `userId` reads through the appended binding. -/
theorem createAttrs_keep (subject : Nat) (body : JsObject) (k : String)
    (hk : ("userId" == k) = false) :
    getProp (createAttrs subject body) k = getProp body k := by
  unfold createAttrs
  rw [getProp_concat]
  simp [hk]

/-- C10: the persisted note's `userId` equals the authenticated
subject's id, for every request body — a client-supplied `userId` is
overridden by the spread order in `{...req.body, userId}`. -/
theorem c10_owner_from_token (subject : Nat) (body : JsObject) (s : Store) :
    (createNoteHandler subject body s).2 = s ++ [createdRow subject body s] ∧
    (createdRow subject body s).userId = subject ∧
    (∀ k : Nat,
      (createdRow subject (body ++ [("userId", Value.num k)]) s).userId =
        subject) :=
  ⟨rfl, createdRow_userId subject body s,
    fun _ => createdRow_userId subject _ s⟩

/-! ## C8: create-then-get round trip -/

/-- The fresh auto-increment id collides with no stored row. -/
theorem find_none_at_nextId (subject : Nat) (s : Store) :
    List.find? (notePred subject (nextId s)) s = none := by
  apply List.find?_eq_none.mpr
  intro r hr
  have hlt : r.id < nextId s := Nat.lt_succ_of_le (mem_id_le_maxId hr)
  unfold notePred
  simp [Nat.ne_of_lt hlt]

/-- The created row passes the owner filter at its own id. -/
theorem createdRow_pred (subject : Nat) (body : JsObject) (s : Store) :
    notePred subject (nextId s) (createdRow subject body s) = true := by
  unfold notePred
  have hid : (createdRow subject body s).id = nextId s := rfl
  simp [hid, createdRow_userId]

/-- C8: after a create, fetching by the id the create returned yields
the created record, whose title and content equal those supplied in the
request body. -/
theorem c8_create_get_roundtrip (subject : Nat) (body : JsObject) (s : Store)
    (t c : String)
    (ht : getProp body "title" = some (Value.str t))
    (hc : getProp body "content" = some (Value.str c)) :
    getNoteHandler subject (createdRow subject body s).id
        (createNoteHandler subject body s).2 =
      ⟨200, RespBody.noteBody (createdRow subject body s)⟩ ∧
    (createdRow subject body s).title = t ∧
    (createdRow subject body s).content = c := by
  have hs2 : (createNoteHandler subject body s).2 =
      s ++ [createdRow subject body s] := rfl
  have hid : (createdRow subject body s).id = nextId s := rfl
  refine ⟨?_, ?_, ?_⟩
  · rw [hs2, hid]
    unfold getNoteHandler findOne
    rw [List.find?_append, find_none_at_nextId]
    simp [List.find?_cons, createdRow_pred subject body s, getNoteLogic]
  · have h1 : (createdRow subject body s).title =
        getStr (createAttrs subject body) "title" := rfl
    rw [h1]
    unfold getStr
    rw [createAttrs_keep subject body "title" (by decide), ht]
  · have h1 : (createdRow subject body s).content =
        getStr (createAttrs subject body) "content" := rfl
    rw [h1]
    unfold getStr
    rw [createAttrs_keep subject body "content" (by decide), hc]

/-- C8 witness: subject 3 creates a note in the demo store and reads it
back with the same title and content. -/
theorem c8_create_get_roundtrip_witness :
    getNoteHandler 3
        (createdRow 3 [("title", Value.str "todo"),
          ("content", Value.str "buy milk")] demoStore).id
        (createNoteHandler 3 [("title", Value.str "todo"),
          ("content", Value.str "buy milk")] demoStore).2 =
      ⟨200, RespBody.noteBody (createdRow 3 [("title", Value.str "todo"),
        ("content", Value.str "buy milk")] demoStore)⟩ ∧
    (createdRow 3 [("title", Value.str "todo"),
      ("content", Value.str "buy milk")] demoStore).title = "todo" ∧
    (createdRow 3 [("title", Value.str "todo"),
      ("content", Value.str "buy milk")] demoStore).content = "buy milk" :=
  c8_create_get_roundtrip 3
    [("title", Value.str "todo"), ("content", Value.str "buy milk")]
    demoStore "todo" "buy milk" (by decide) (by decide)

/-! ## C7: share always fails -/

/-- C7: even when the note exists under the owner filter and the target
user exists, the share handler delegates to the unimplemented
`addSharedUser`, whose throw is caught and answered with the generic
500; no share ever succeeds. -/
theorem c7_share_never_succeeds :
    (∀ note user : Row,
      route_share (Except.ok (some note)) (Except.ok (some user)) =
        Except.ok (err 500 "Failed to share the note")) ∧
    (∀ noteRes userRes : Except JsError (Option Row),
      route_share noteRes userRes ≠
        Except.ok ⟨200, RespBody.msgBody "Note shared successfully"⟩) := by
  constructor
  · intro note user
    rfl
  · intro noteRes userRes h
    rcases noteRes with e | o
    · rw [show route_share (Except.error e) userRes =
          Except.ok (err 500 "Failed to share the note") from rfl] at h
      exact absurd (Except.ok.inj h) (by decide)
    · rcases o with _ | n
      · rw [show route_share (Except.ok none) userRes = Except.ok
            (err 404
              "Note not found or does not belong to the authenticated user")
            from rfl] at h
        exact absurd (Except.ok.inj h) (by decide)
      · rcases userRes with e2 | o2
        · rw [show route_share (Except.ok (some n)) (Except.error e2) =
              Except.ok (err 500 "Failed to share the note") from rfl] at h
          exact absurd (Except.ok.inj h) (by decide)
        · rcases o2 with _ | u
          · rw [show route_share (Except.ok (some n)) (Except.ok none) =
                Except.ok (err 404 "User to share with not found")
                from rfl] at h
            exact absurd (Except.ok.inj h) (by decide)
          · rw [show route_share (Except.ok (some n)) (Except.ok (some u)) =
                Except.ok (err 500 "Failed to share the note") from rfl] at h
            exact absurd (Except.ok.inj h) (by decide)

/-! ## C6: failures become a generic 500 (corrected) -/

/-- C6 counterexample: the search handler has no try/catch, so a storage
failure during its single storage operation propagates out of the
handler instead of being converted into any HTTP response. -/
theorem c6_search_uncaught_counterexample :
    route_search "jo" (Except.error JsError.storageFailure) =
      Except.error JsError.storageFailure := rfl

/-- C6 (amended): every handler except `GET /api/search` catches its
storage failure at the handler boundary and answers a generic 500 whose
body is a constant message, independent of the failure; the search
handler alone propagates the failure unconverted. -/
theorem c6_generic_500_amended :
    (∀ e, route_login (Except.error e) =
      Except.ok (err 500 "Failed to log in")) ∧
    (∀ e, route_getNotes (Except.error e) =
      Except.ok (err 500 "Failed to retrieve notes")) ∧
    (∀ e, route_getNote (Except.error e) =
      Except.ok (err 500 "Failed to retrieve note")) ∧
    (∀ e, route_createNote (Except.error e) =
      Except.ok (err 500 "Failed to create a new note")) ∧
    (∀ e, route_updateNote (Except.error e) =
      Except.ok (err 500 "Failed to update note")) ∧
    (∀ e, route_deleteNote (Except.error e) =
      Except.ok (err 500 "Failed to delete note")) ∧
    (∀ e userRes, route_share (Except.error e) userRes =
      Except.ok (err 500 "Failed to share the note")) ∧
    (∀ e note, route_share (Except.ok (some note)) (Except.error e) =
      Except.ok (err 500 "Failed to share the note")) ∧
    (∀ q e, route_search q (Except.error e) = Except.error e) :=
  ⟨fun _ => rfl, fun _ => rfl, fun _ => rfl, fun _ => rfl, fun _ => rfl,
   fun _ => rfl, fun _ _ => rfl, fun _ _ => rfl, fun _ _ => rfl⟩

/-! ## C5: search semantics (corrected) -/

theorem hasPre_iff (q : List Char) : ∀ s : List Char,
    hasPre q s = true ↔ ∃ t, s = q ++ t := by
  induction q with
  | nil =>
    intro s
    simp [hasPre]
  | cons a qs ih =>
    intro s
    cases s with
    | nil =>
      simp [hasPre]
    | cons b ss =>
      rw [show hasPre (a :: qs) (b :: ss) = ((a == b) && hasPre qs ss)
        from rfl]
      constructor
      · intro h
        have hab := eq_of_beq ((Bool.and_eq_true _ _).mp h).1
        obtain ⟨t, ht⟩ := (ih ss).mp ((Bool.and_eq_true _ _).mp h).2
        exact ⟨t, by simp [hab, ht]⟩
      · rintro ⟨t, ht⟩
        rw [List.cons_append] at ht
        have hb : b = a := (List.cons.injEq _ _ _ _ ▸ ht).1
        have hss : ss = qs ++ t := (List.cons.injEq _ _ _ _ ▸ ht).2
        apply (Bool.and_eq_true _ _).mpr
        exact ⟨by simp [hb], (ih ss).mpr ⟨t, hss⟩⟩

theorem isSubstr_iff (q : List Char) : ∀ s : List Char,
    isSubstr q s = true ↔ ∃ l t, s = l ++ q ++ t := by
  intro s
  induction s with
  | nil =>
    rw [show isSubstr q [] = hasPre q [] from rfl, hasPre_iff]
    constructor
    · rintro ⟨t, ht⟩
      exact ⟨[], t, by simpa using ht⟩
    · rintro ⟨l, t, ht⟩
      have hl : l = [] ∧ q ++ t = [] :=
        List.append_eq_nil.mp (by simpa [List.append_assoc] using ht.symm)
      exact ⟨t, by simp [hl.2]⟩
  | cons c ss ih =>
    rw [show isSubstr q (c :: ss) = (hasPre q (c :: ss) || isSubstr q ss)
      from rfl]
    rw [Bool.or_eq_true, hasPre_iff, ih]
    constructor
    · rintro (⟨t, ht⟩ | ⟨l, t, ht⟩)
      · exact ⟨[], t, by simpa using ht⟩
      · exact ⟨c :: l, t, by simp [ht]⟩
    · rintro ⟨l, t, ht⟩
      cases l with
      | nil => exact Or.inl ⟨t, by simpa using ht⟩
      | cons x xs =>
        refine Or.inr ⟨xs, t, ?_⟩
        have := (List.cons.injEq _ _ _ _ ▸
          (by simpa [List.append_assoc] using ht : c :: ss = x :: (xs ++ q ++ t)))
        exact this.2

theorem likeStar_iff (f : List Char → Bool) : ∀ s : List Char,
    likeStar f s = true ↔ ∃ l t, s = l ++ t ∧ f t = true := by
  intro s
  induction s with
  | nil =>
    rw [show likeStar f [] = f [] from rfl]
    constructor
    · intro h
      exact ⟨[], [], rfl, h⟩
    · rintro ⟨l, t, ht, hf⟩
      have hl : l = [] ∧ t = [] := List.append_eq_nil.mp ht.symm
      rw [← hl.2]
      exact hf
  | cons c ss ih =>
    rw [show likeStar f (c :: ss) = (f (c :: ss) || likeStar f ss) from rfl]
    rw [Bool.or_eq_true, ih]
    constructor
    · rintro (h | ⟨l, t, ht, hf⟩)
      · exact ⟨[], c :: ss, rfl, h⟩
      · exact ⟨c :: l, t, by simp [ht], hf⟩
    · rintro ⟨l, t, ht, hf⟩
      cases l with
      | nil =>
        refine Or.inl ?_
        have : t = c :: ss := by simpa using ht.symm
        rw [← this]
        exact hf
      | cons x xs =>
        have hx := List.cons.injEq _ _ _ _ ▸
          (by simpa using ht : c :: ss = x :: (xs ++ t))
        exact Or.inr ⟨xs, t, hx.2, hf⟩

theorem likeMatch_lit (q : List Char) :
    (∀ c ∈ q, c ≠ '%' ∧ c ≠ '_') → ∀ s : List Char,
    (likeMatch (q ++ ['%']) s = true ↔ ∃ t, s = q ++ t) := by
  induction q with
  | nil =>
    intro _ s
    rw [show ([] : List Char) ++ ['%'] = ['%'] from rfl]
    rw [show likeMatch ['%'] s = likeStar (likeMatch []) s from by
      simp [likeMatch]]
    rw [likeStar_iff]
    constructor
    · intro _
      exact ⟨s, rfl⟩
    · intro _
      exact ⟨s, [], by simp, rfl⟩
  | cons a qs ih =>
    intro hq s
    have ha := hq a (List.mem_cons_self a qs)
    have hqs : ∀ c ∈ qs, c ≠ '%' ∧ c ≠ '_' :=
      fun c hc => hq c (List.mem_cons_of_mem a hc)
    have haU : (a == '_') = false := beq_eq_false_iff_ne.mpr ha.2
    cases s with
    | nil =>
      rw [List.cons_append]
      rw [show likeMatch (a :: (qs ++ ['%'])) [] = false from by
        simp [likeMatch, ha.1]]
      simp
    | cons b ss =>
      rw [List.cons_append]
      rw [show likeMatch (a :: (qs ++ ['%'])) (b :: ss) =
          ((a == '_' || a == b) && likeMatch (qs ++ ['%']) ss) from by
        simp [likeMatch, ha.1]]
      rw [haU, Bool.false_or, Bool.and_eq_true, ih hqs ss]
      constructor
      · rintro ⟨hab, t, ht⟩
        exact ⟨t, by simp [eq_of_beq hab, ht]⟩
      · rintro ⟨t, ht⟩
        rw [List.cons_append] at ht
        have hb : b = a := (List.cons.injEq _ _ _ _ ▸ ht).1
        have hss : ss = qs ++ t := (List.cons.injEq _ _ _ _ ▸ ht).2
        exact ⟨by simp [hb], t, hss⟩

/-- The code-side LIKE pattern `'%' ++ q ++ '%'` agrees with the
spec-side substring test exactly when `q` itself contains no SQL
wildcard. -/
theorem likeMatch_isSubstr (q : List Char)
    (hq : ∀ c ∈ q, c ≠ '%' ∧ c ≠ '_') (s : List Char) :
    likeMatch ('%' :: (q ++ ['%'])) s = isSubstr q s := by
  have h1 : likeMatch ('%' :: (q ++ ['%'])) s =
      likeStar (likeMatch (q ++ ['%'])) s := by
    simp [likeMatch]
  rw [h1]
  cases hlhs : likeStar (likeMatch (q ++ ['%'])) s with
  | true =>
    obtain ⟨l, t, ht, hf⟩ := (likeStar_iff _ s).mp hlhs
    obtain ⟨u, hu⟩ := (likeMatch_lit q hq t).mp hf
    exact ((isSubstr_iff q s).mpr ⟨l, u, by simp [ht, hu]⟩).symm
  | false =>
    cases hrhs : isSubstr q s with
    | false => rfl
    | true =>
      exfalso
      obtain ⟨l, u, hsu⟩ := (isSubstr_iff q s).mp hrhs
      have : likeStar (likeMatch (q ++ ['%'])) s = true :=
        (likeStar_iff _ s).mpr
          ⟨l, q ++ u, by simp [hsu], (likeMatch_lit q hq _).mpr ⟨u, rfl⟩⟩
      rw [this] at hlhs
      cases hlhs

/-- C5 counterexample: for the query string `%` the search returns every
identity — here the user `john`, whose username does not contain `%` as
a substring — because the query is spliced into the LIKE pattern and its
wildcards keep their meaning. -/
theorem c5_search_counterexample :
    (SearchResult.mk 1 "john" "a@x.com") ∈ searchLogic "%" demoStore ∧
    isSubstr "%".data "john".data = false := by decide

/-- C5 (amended): for a query string free of the SQL LIKE wildcards `%`
and `_`, the search result contains exactly the projections
`{id, username, email}` of the identities whose username contains the
query as a substring (and the projection record has no password field). -/
theorem c5_search_amended (q : String)
    (hq : ∀ c ∈ q.data, c ≠ '%' ∧ c ≠ '_') (s : Store) (res : SearchResult) :
    res ∈ searchLogic q s ↔
      ∃ r ∈ s, isSubstr q.data r.username.data = true ∧
        res = ⟨r.id, r.username, r.email⟩ := by
  unfold searchLogic findAll searchPattern
  rw [List.mem_map]
  constructor
  · rintro ⟨r, hmem, rfl⟩
    have h2 := List.mem_filter.mp hmem
    refine ⟨r, h2.1, ?_, rfl⟩
    rw [← likeMatch_isSubstr q.data hq]
    exact h2.2
  · rintro ⟨r, hr, hsub, rfl⟩
    refine ⟨r, List.mem_filter.mpr ⟨hr, ?_⟩, rfl⟩
    rw [likeMatch_isSubstr q.data hq]
    exact hsub

/-- C5 witness: searching `jo` over the demo identities returns the
projection of `john` (whose username contains `jo`). -/
theorem c5_search_amended_witness :
    (SearchResult.mk 1 "john" "a@x.com") ∈ searchLogic "jo" demoStore :=
  (c5_search_amended "jo" (by decide) demoStore ⟨1, "john", "a@x.com"⟩).mpr
    ⟨rowA, by decide, by decide, by decide⟩
